import Mathlib

/-!
Verification development for the IOCL_Backend medical-bill extraction and
verification system.  Python sources are shallowly embedded: amounts (Python
floats carrying currency values with two-decimal rounding) are modelled as
rationals, Python `round(x, 2)` as round-half-to-even at two decimals,
fallible code as `Except`, and `dict`s as association lists.
-/

/-- Python exception kinds raised by the embedded code. -/
inductive PyErr
  | attributeError
  | assertionError
  | valueError
  deriving DecidableEq, Inhabited

/-- Round-half-to-even to an integer, as Python's builtin `round` does. -/
def roundHalfEven (q : ℚ) : ℤ :=
  let f := ⌊q⌋
  let r := q - f
  if r < 1/2 then f
  else if 1/2 < r then f + 1
  else if f % 2 = 0 then f else f + 1

/-- Python `round(x, 2)`: round-half-to-even at two decimal places. -/
def round2 (q : ℚ) : ℚ := (roundHalfEven (q * 100) : ℚ) / 100

/-- A rational that is an exact multiple of `1/100` (a two-decimal amount). -/
def IsDec2 (x : ℚ) : Prop := ∃ n : ℤ, x = (n : ℚ) / 100

/-! ## Backend verifier data model (src/backend/app/verifier/models.py) -/

/-- `ItemType` enum of models.py: pricing type of a tie-up rate item. -/
inductive ItemType
  | UNIT
  | SERVICE
  | BUNDLE
  deriving DecidableEq, Inhabited

/-- `VerificationStatus` enum exactly as declared in models.py lines 25-31:
its members are GREEN, RED, MISMATCH, ALLOWED_NOT_COMPARABLE and
IGNORED_ARTIFACT.  (The source declares no UNCLASSIFIED member.) -/
inductive VerificationStatus
  | GREEN
  | RED
  | MISMATCH
  | ALLOWED_NOT_COMPARABLE
  | IGNORED_ARTIFACT
  deriving DecidableEq, Inhabited

/-- Python attribute lookup `VerificationStatus.<name>` on the enum class:
yields the member when one with that name exists and raises AttributeError
otherwise, exactly as CPython resolves enum member access. -/
def statusLookup : String → Except PyErr VerificationStatus
  | "GREEN" => .ok .GREEN
  | "RED" => .ok .RED
  | "MISMATCH" => .ok .MISMATCH
  | "ALLOWED_NOT_COMPARABLE" => .ok .ALLOWED_NOT_COMPARABLE
  | "IGNORED_ARTIFACT" => .ok .IGNORED_ARTIFACT
  | _ => .error .attributeError

/-- `TieUpItem` of models.py: a rate-sheet entry. -/
structure TieUpItem where
  item_name : String
  rate : ℚ
  type : ItemType
  deriving DecidableEq, Inhabited

/-- `ItemVerificationResult` of models.py (the fields read by
`calculate_financial_contribution`). -/
structure ItemVerificationResult where
  bill_item : String
  matched_item : Option String
  status : VerificationStatus
  bill_amount : ℚ
  allowed_amount : ℚ
  extra_amount : ℚ
  deriving DecidableEq, Inhabited

/-! ## Price checker (src/backend/app/verifier/price_checker.py) -/

/-- `PriceCheckResult` dataclass of price_checker.py. -/
structure PriceCheckResult where
  status : VerificationStatus
  bill_amount : ℚ
  allowed_amount : ℚ
  extra_amount : ℚ
  deriving DecidableEq, Inhabited

/-- `calculate_allowed_amount` of price_checker.py lines 40-71: unit pricing
multiplies rate by quantity, service and bundle pricing ignore quantity; the
result is rounded to two decimals.  (The `else` branch for unknown types is
unreachable for the closed `ItemType` sum.) -/
def calculate_allowed_amount (tieup_item : TieUpItem) (quantity : ℚ) : ℚ :=
  match tieup_item.type with
  | .UNIT => round2 (tieup_item.rate * quantity)
  | .SERVICE => round2 tieup_item.rate
  | .BUNDLE => round2 tieup_item.rate

/-- `check_price` of price_checker.py lines 74-124.  The `tieup_item is None`
branch evaluates `VerificationStatus.UNCLASSIFIED`, which is an attribute
lookup on the enum class, embedded through `statusLookup`. -/
def check_price (bill_amount : ℚ) (tieup_item : Option TieUpItem)
    (quantity : ℚ) : Except PyErr PriceCheckResult :=
  let bill := round2 bill_amount
  match tieup_item with
  | none => do
      let st ← statusLookup "UNCLASSIFIED"
      return { status := st, bill_amount := bill, allowed_amount := 0, extra_amount := 0 }
  | some t =>
      let allowed := calculate_allowed_amount t quantity
      if bill ≤ allowed then
        .ok { status := .GREEN, bill_amount := bill, allowed_amount := allowed,
              extra_amount := 0 }
      else
        .ok { status := .RED, bill_amount := bill, allowed_amount := allowed,
              extra_amount := round2 (bill - allowed) }

/-! ## Financial contribution (src/backend/app/verifier/financial_contribution.py) -/

/-- `FinancialContribution` dataclass. -/
structure FinancialContribution where
  bill_amount : ℚ
  allowed_limit : Option ℚ
  allowed_contribution : ℚ
  extra_contribution : ℚ
  unclassified_contribution : ℚ
  is_excluded : Bool
  deriving DecidableEq, Inhabited

/-- `FinancialContribution.validate` lines 52-97: the chain of `assert`
statements, each failing one raising AssertionError. -/
def FinancialContribution.validate (c : FinancialContribution) : Except PyErr Unit :=
  if c.is_excluded then
    if ¬ c.allowed_contribution = 0 then .error .assertionError
    else if ¬ c.extra_contribution = 0 then .error .assertionError
    else if ¬ c.unclassified_contribution = 0 then .error .assertionError
    else .ok ()
  else
    let total := c.allowed_contribution + c.extra_contribution + c.unclassified_contribution
    if ¬ |c.bill_amount - total| < 1/100 then .error .assertionError
    else if ¬ c.allowed_contribution ≤ c.bill_amount + 1/100 then .error .assertionError
    else
      match c.allowed_limit with
      | some lim =>
          if ¬ c.allowed_contribution ≤ lim + 1/100 then .error .assertionError
          else .ok ()
      | none => .ok ()

/-- `calculate_financial_contribution` lines 100-224.  The final membership
test `item.status in (VerificationStatus.UNCLASSIFIED, VerificationStatus.MISMATCH)`
first evaluates the attribute `VerificationStatus.UNCLASSIFIED`, embedded
through `statusLookup`; the unreachable tail raises ValueError. -/
def calculate_financial_contribution (item : ItemVerificationResult) :
    Except PyErr FinancialContribution :=
  let bill := item.bill_amount
  if item.status = .IGNORED_ARTIFACT then
    .ok { bill_amount := bill, allowed_limit := none, allowed_contribution := 0,
          extra_contribution := 0, unclassified_contribution := 0, is_excluded := true }
  else if item.status = .ALLOWED_NOT_COMPARABLE then
    .ok { bill_amount := bill, allowed_limit := none, allowed_contribution := 0,
          extra_contribution := 0, unclassified_contribution := 0, is_excluded := true }
  else if item.status = .GREEN then
    let contrib : FinancialContribution :=
      { bill_amount := bill, allowed_limit := some item.allowed_amount,
        allowed_contribution := bill, extra_contribution := 0,
        unclassified_contribution := 0, is_excluded := false }
    do
      contrib.validate
      return contrib
  else if item.status = .RED then
    let contrib : FinancialContribution :=
      { bill_amount := bill, allowed_limit := some item.allowed_amount,
        allowed_contribution := item.allowed_amount,
        extra_contribution := bill - item.allowed_amount,
        unclassified_contribution := 0, is_excluded := false }
    do
      contrib.validate
      return contrib
  else do
    let u ← statusLookup "UNCLASSIFIED"
    if item.status = u ∨ item.status = .MISMATCH then
      let contrib : FinancialContribution :=
        { bill_amount := bill, allowed_limit := none, allowed_contribution := 0,
          extra_contribution := 0, unclassified_contribution := bill,
          is_excluded := false }
      do
        contrib.validate
        return contrib
    else .error .valueError

/-! ## Section tracker (src/app/extraction/section_tracker.py) -/

/-- `SectionEvent` dataclass: a section header detected at `(page, y)`.
The Python field `section` is named `sec` here (`section` is a Lean keyword). -/
structure SectionEvent where
  page : ℤ
  y : ℚ
  sec : String
  text : String
  deriving DecidableEq, Inhabited

/-- Python tuple comparison `(page, y) <= (page', y')`: lexicographic order. -/
def keyLE (a b : ℤ × ℚ) : Prop := a.1 < b.1 ∨ (a.1 = b.1 ∧ a.2 ≤ b.2)

instance : DecidableRel keyLE := fun a b => by
  unfold keyLE; infer_instance

instance : IsRefl (ℤ × ℚ) keyLE := ⟨fun a => Or.inr ⟨rfl, le_refl a.2⟩⟩

instance : IsTrans (ℤ × ℚ) keyLE := by
  refine ⟨fun a b c hab hbc => ?_⟩
  rcases hab with h1 | ⟨h1, h1'⟩ <;> rcases hbc with h2 | ⟨h2, h2'⟩
  · exact Or.inl (h1.trans h2)
  · exact Or.inl (h2 ▸ h1)
  · exact Or.inl (h1 ▸ h2)
  · exact Or.inr ⟨h1.trans h2, h1'.trans h2'⟩

instance : IsTotal (ℤ × ℚ) keyLE := by
  refine ⟨fun a b => ?_⟩
  rcases lt_trichotomy a.1 b.1 with h | h | h
  · exact Or.inl (Or.inl h)
  · rcases le_total a.2 b.2 with h' | h'
    · exact Or.inl (Or.inr ⟨h, h'⟩)
    · exact Or.inr (Or.inr ⟨h.symm, h'⟩)
  · exact Or.inr (Or.inl h)

/-- Sort key of an event, `(e.page, e.y)` as in `_ensure_sorted`. -/
def SectionEvent.key (e : SectionEvent) : ℤ × ℚ := (e.page, e.y)

/-- Event ordering used by `self.events.sort(key=lambda e: (e.page, e.y))`. -/
def eventLE (e e' : SectionEvent) : Prop := keyLE e.key e'.key

instance : DecidableRel eventLE := fun a b => by
  unfold eventLE; infer_instance

instance : IsTrans SectionEvent eventLE :=
  ⟨fun _ _ _ h h' => Trans.trans (r := keyLE) h h'⟩

instance : IsTotal SectionEvent eventLE := ⟨fun a b => IsTotal.total (r := keyLE) a.key b.key⟩

/-- `SectionTracker._ensure_sorted`: the recorded events sorted by `(page, y)`. -/
def sortedEvents (events : List SectionEvent) : List SectionEvent :=
  events.insertionSort eventLE

/-- `SectionTracker.get_section_at` lines 123-147.  `bisect.bisect_right` on a
sorted key list returns the insertion point to the right of the query, which
is the number of keys `≤` the query; the source then reads the value at
`idx = bisect_right - 1` when `idx >= 0` and returns None otherwise. -/
def get_section_at (events : List SectionEvent) (page : ℤ) (y : ℚ) : Option String :=
  let l := sortedEvents events
  let cnt := l.countP (fun e => decide (keyLE e.key (page, y)))
  if cnt = 0 then none
  else (l.get? (cnt - 1)).map SectionEvent.sec

/-! ## Character and string helpers shared by the extraction embeddings -/

/-- Python strings are embedded as lists of characters. -/
abbrev Str := List Char

/-- Python `\s` whitespace class (ASCII). -/
def isSpc (c : Char) : Bool :=
  c = ' ' || c = '\t' || c = '\n' || c = '\r' || c = '\x0b' || c = '\x0c'

/-- Python `str.strip()`: drop whitespace from both ends. -/
def pyStrip (s : Str) : Str :=
  ((s.dropWhile isSpc).reverse.dropWhile isSpc).reverse

/-- ASCII uppercasing of one character, as Python `str.upper` acts on ASCII. -/
def upChar (c : Char) : Char :=
  if 97 ≤ c.toNat ∧ c.toNat ≤ 122 then Char.ofNat (c.toNat - 32) else c

/-- ASCII lowercasing of one character, as Python `str.lower` acts on ASCII. -/
def loChar (c : Char) : Char :=
  if 65 ≤ c.toNat ∧ c.toNat ≤ 90 then Char.ofNat (c.toNat + 32) else c

/-- Python `str.upper()` (ASCII). -/
def upperL (s : Str) : Str := s.map upChar

/-- Python `str.lower()` (ASCII). -/
def lowerL (s : Str) : Str := s.map loChar

/-- Python substring containment `needle in hay`. -/
def containsSub (needle : Str) : Str → Bool
  | [] => needle.isEmpty
  | c :: rest => needle.isPrefixOf (c :: rest) || containsSub needle rest

/-- All-digit nonempty string (`^\d+$`). -/
def allDigits (s : Str) : Bool := !s.isEmpty && s.all Char.isDigit

/-! ### A small nondeterministic matcher for the regex fragments the sources
use.  A pattern maps a suffix of the subject to every remainder that a match
starting at that suffix can leave; regex alternation, optionality and star
are lists of outcomes, so the encoding backtracks exactly as `re` does. -/

/-- Pattern: consumes a prefix of the subject, returning possible remainders. -/
abbrev Pat := Str → List Str

/-- Literal text. -/
def pLit (w : Str) : Pat := fun s => if w.isPrefixOf s then [s.drop w.length] else []

/-- Single character from a class. -/
def pCls (f : Char → Bool) : Pat := fun s =>
  match s with
  | [] => []
  | c :: r => if f c then [r] else []

/-- Sequencing. -/
def pSeq (a b : Pat) : Pat := fun s => (a s).flatMap b

/-- Alternation over a list of branches. -/
def pAlt (ps : List Pat) : Pat := fun s => ps.flatMap (fun p => p s)

/-- Optional fragment (`?`). -/
def pOpt (a : Pat) : Pat := fun s => s :: a s

/-- Kleene star over a character class (`[..]*`). -/
def pStar (f : Char → Bool) : Str → List Str
  | [] => [[]]
  | c :: r => (c :: r) :: (if f c then pStar f r else [])

/-- One-or-more over a character class (`[..]+`). -/
def pPlus (f : Char → Bool) : Pat := pSeq (pCls f) (fun s => pStar f s)

/-- Exactly `n` characters of a class (`[..]{n}`; `{n,}` at the end of a
search reduces to this, extra repetitions being absorbed by the context). -/
def pRep : Nat → (Char → Bool) → Pat
  | 0, _ => fun s => [s]
  | n + 1, f => pSeq (pCls f) (pRep n f)

/-- Python `\w` word character. -/
def wordChar (c : Char) : Bool := c.isAlphanum || c = '_'

/-- Trailing `\b` after a word character: the remainder must not start with a
word character. -/
def pBdry : Pat := fun s =>
  match s with
  | [] => [[]]
  | c :: r => if wordChar c then [] else [c :: r]

/-- `re.search` of a pattern anchored by a leading `\b` before a word
character: try every start position whose preceding character is not a word
character. -/
def pSearchBFrom (p : Pat) : Char → Str → Bool
  | _, [] => false
  | prev, c :: r => (!wordChar prev && !(p (c :: r)).isEmpty) || pSearchBFrom p c r

/-- Search with a leading word boundary (see `pSearchBFrom`). -/
def pSearchB (p : Pat) (s : Str) : Bool :=
  !(p s).isEmpty || (match s with
    | [] => false
    | c :: r => pSearchBFrom p c r)

/-- Unanchored `re.search`: try every start position. -/
def pSearchAny (p : Pat) : Str → Bool
  | [] => !(p []).isEmpty
  | c :: r => !(p (c :: r)).isEmpty || pSearchAny p r

/-- `re.match` for a pattern ending in `$`: some outcome consumes everything. -/
def pFull (p : Pat) (s : Str) : Bool := (p s).any List.isEmpty

/-- `re.match` / `re.search` of an `^`-anchored pattern without `$`. -/
def pAtStart (p : Pat) (s : Str) : Bool := !(p s).isEmpty

/-- Search for `n` consecutive characters of a class (`[..]{n,}` unanchored). -/
def hasRun (n : Nat) (f : Char → Bool) (s : Str) : Bool := pSearchAny (pRep n f) s

/-! ## Payment detection and the bill extractor orchestrator tail
(src/app/extraction/bill_extractor.py) -/

/-- Character class of dash, slash or colon. -/
def sepCls (c : Char) : Bool := c = '-' || c = '/' || c = ':'

/-- `PAYMENT_PATTERNS` of bill_extractor.py lines 71-89, translated pattern by
pattern; the subject is already uppercased, so the IGNORECASE literals are
written in upper case. -/
def paymentPatterns : List Pat :=
  [ pSeq (pLit "RCPO-".data) (pSeq (pPlus Char.isAlphanum) pBdry),
    pSeq (pLit "RCP".data) (pSeq (fun s => pStar Char.isAlpha s)
      (pSeq (pOpt (pCls sepCls)) (pSeq (pPlus Char.isAlphanum) pBdry))),
    pSeq (pLit "RCPT".data) (pSeq (pOpt (pCls sepCls))
      (pSeq (pPlus Char.isAlphanum) pBdry)),
    pSeq (pAlt [pLit "UTR".data, pLit "RRN".data, pLit "TXN".data,
      pLit "TRANSACTION".data]) pBdry,
    pSeq (pAlt [pLit "PAYMENT".data, pLit "PAID".data, pLit "RECEIPT".data]) pBdry,
    pSeq (pAlt [pLit "CASH".data, pLit "CARD".data, pLit "UPI".data,
      pSeq (pLit "NET".data) (pSeq (fun s => pStar isSpc s) (pLit "BANKING".data))]) pBdry,
    pSeq (pLit "BALANCE".data) (pSeq (fun s => pStar isSpc s)
      (pSeq (pAlt [pLit "DUE".data,
        pSeq (pLit "TO".data) (pSeq (fun s => pStar isSpc s) (pLit "PAY".data))]) pBdry)),
    pSeq (pLit "TOTAL".data) (pSeq (fun s => pStar isSpc s)
      (pSeq (pAlt [pLit "PAID".data, pLit "RECEIVED".data]) pBdry)),
    pSeq (pLit "AMOUNT".data) (pSeq (fun s => pStar isSpc s)
      (pSeq (pAlt [pLit "PAID".data, pLit "RECEIVED".data]) pBdry)),
    pSeq (pLit "PAID".data) (pSeq (pPlus isSpc) (pSeq (pLit "BY".data) pBdry)),
    pSeq (pLit "PAYMENT".data) (pSeq (pPlus isSpc)
      (pSeq (pAlt [pLit "MODE".data, pLit "METHOD".data, pLit "TYPE".data]) pBdry)),
    pSeq (pAlt [pLit "ADVANCE".data, pLit "DEPOSIT".data]) (pSeq (pPlus isSpc)
      (pSeq (pLit "RECEIVED".data) pBdry)),
    pSeq (pLit "REFUND".data) pBdry,
    pSeq (pLit "SETTLEMENT".data) pBdry,
    pSeq (pAlt [pLit "CREDIT".data, pLit "DEBIT".data]) (pSeq (pPlus isSpc)
      (pSeq (pLit "CARD".data) pBdry)),
    pSeq (pLit "TRANSACTION".data) (pSeq (pPlus isSpc) (pSeq (pLit "ID".data) pBdry)) ]

/-- Medical indicator substrings checked by `is_paymentish` (line 96). -/
def medicalIndicators : List Str :=
  [" TAB ".data, " CAP ".data, " INJ ".data, " SYR ".data,
   " MG ".data, " ML ".data, " TEST ".data, " SCAN ".data]

/-- `is_paymentish` of bill_extractor.py lines 92-99: uppercase the text,
return false when a medical indicator occurs in the padded text, otherwise
search the payment patterns. -/
def is_paymentish (text : Str) : Bool :=
  let t := upperL text
  if medicalIndicators.any (fun ind => containsSub ind (' ' :: (t ++ [' ']))) then false
  else paymentPatterns.any (fun p => pSearchB p t)

/-- A line item as emitted by `ItemParser` (the fields the orchestrator tail
reads). -/
structure LineItem where
  description : String
  final_amount : ℚ
  discrepancy : Bool
  deriving DecidableEq, Inhabited

/-- A discount entry recorded under `summary.discounts`. -/
structure Discount where
  description : String
  amount : ℚ
  deriving DecidableEq, Inhabited

/-- The per-item test of `_validate_no_payment_leakage` (lines 1234-1236):
`d = description.upper()`, then `"RCPO-" in d or "RCP" in d or is_paymentish(d)`. -/
def paymentLeak (desc : Str) : Bool :=
  let d := upperL desc
  containsSub "RCPO-".data d || containsSub "RCP".data d || is_paymentish d

/-- `_validate_no_payment_leakage` lines 1231-1239; raising on the first
offending item is the same as raising exactly when some item offends. -/
def validate_no_payment_leakage (categorized : List (String × List LineItem)) :
    Except PyErr Unit :=
  if categorized.any (fun kv => kv.2.any (fun it => paymentLeak it.description.data)) then
    .error .assertionError
  else .ok ()

/-- `MAX_GRAND_TOTAL = 1e8`. -/
def MAX_GRAND_TOTAL : ℚ := 10 ^ 8

/-- Modelled from the spec: `validate_grand_total` of numeric_guards.py (the
file is absent from src/) "caps at `MAX_GRAND_TOTAL = 1e8` and returns
`(false, reason)` when exceeded" (spec section 4.A). -/
def validate_grand_total (g : ℚ) : Bool × String :=
  if MAX_GRAND_TOTAL < g then (false, "grand total exceeds cap") else (true, "")

/-- The document assembled by `BillExtractor.extract` (the fields produced by
lines 1156-1203 that the claims mention). -/
structure BillDoc where
  items : List (String × List LineItem)
  subtotals : List (String × ℚ)
  grand_total : ℚ
  discount_total : ℚ
  extraction_warnings : List String
  deriving DecidableEq, Inhabited

/-- `_build_discount_summary` lines 1205-1229, restricted to the overall
total: the per-type totals are accumulated unrounded and the sum is rounded
once at the end. -/
def buildDiscountTotal (discounts : List (String × List Discount)) : ℚ :=
  round2 ((discounts.map (fun kv => (kv.2.map Discount.amount).sum)).sum)

/-! The orchestrator tail of `BillExtractor.extract` (bill_extractor.py lines
1156-1203) follows.  Stages 1-3 of the pipeline produce the categorized
billable items and the discounts; the stage outputs are taken as inputs
here, so every reachable stage output is covered.  The tail validates
payment isolation, computes rounded per-category subtotals from
`final_amount`, drops non-positive subtotals, sums them into the grand
total, records the discrepancy and cap warnings, caps the grand total, and
assembles the document; stage-3 payments were already discarded (choice C)
and never reach this code.  The tail's locals are named definitions. -/

/-- Local `subtotals` of the tail (lines 1161-1166): rounded per-category
sums of `final_amount`, with non-positive entries dropped. -/
def subtotalsOf (categorized : List (String × List LineItem)) : List (String × ℚ) :=
  (categorized.map (fun kv => (kv.1, round2 ((kv.2.map LineItem.final_amount).sum)))).filter
    (fun kv => decide (0 < kv.2))

/-- Local `grand_total` before the cap (line 1168): the rounded sum of the
recorded subtotals. -/
def grand0Of (categorized : List (String × List LineItem)) : ℚ :=
  round2 (((subtotalsOf categorized).map Prod.snd).sum)

/-- Local `total_discrepancies` (lines 1171-1174). -/
def discrepancyCount (categorized : List (String × List LineItem)) : ℕ :=
  (categorized.map (fun kv => kv.2.countP LineItem.discrepancy)).sum

/-- The grand total after the cap step (lines 1179-1183). -/
def grandFinalOf (categorized : List (String × List LineItem)) : ℚ :=
  if (validate_grand_total (grand0Of categorized)).1 then grand0Of categorized
  else min (grand0Of categorized) MAX_GRAND_TOTAL

/-- The warnings the tail records (lines 1175-1182). -/
def warningsOf (categorized : List (String × List LineItem)) : List String :=
  if (validate_grand_total (grand0Of categorized)).1 then
    (if 0 < discrepancyCount categorized then ["qty_rate_discrepancies"] else [])
  else
    (if 0 < discrepancyCount categorized then ["qty_rate_discrepancies"] else [])
      ++ ["grand_total_cap"]

/-- The tail itself: validate, then assemble the document from the locals
above (lines 1156-1203). -/
def billExtractTail (categorized : List (String × List LineItem))
    (discounts : List (String × List Discount)) : Except PyErr BillDoc := do
  validate_no_payment_leakage categorized
  return { items := categorized, subtotals := subtotalsOf categorized,
           grand_total := grandFinalOf categorized,
           discount_total := buildDiscountTotal discounts,
           extraction_warnings := warningsOf categorized }

/-! ## Header aggregator (src/app/extraction/bill_extractor.py lines 281-714) -/

/-- `Candidate` dataclass (lines 330-337). -/
structure Candidate where
  field : String
  value : String
  score : ℚ
  page : ℤ
  deriving DecidableEq, Inhabited

/-- `HeaderAggregator._is_garbage_value` lines 355-371: empty after strip,
a bare label word optionally followed by a dot and a colon, punctuation-only,
or too short / letterless. -/
def is_garbage_value (value : String) : Bool :=
  let v := pyStrip value.data
  if v.isEmpty then true
  else
    let vu := upperL v
    let labelWords : List Str :=
      ["MRN".data, "UHID".data, "NAME".data, "PATIENT".data, "DATE".data,
       "BILL".data, "NO".data, "NUMBER".data, "ID".data]
    if labelWords.any (fun w =>
        pFull (pSeq (pLit w) (pSeq (pOpt (pLit ['.'])) (pOpt (pLit [':'])))) vu)
      || vu.all (fun c => c = ':' || c = '.' || c = '-' || isSpc c) then true
    else if v.length < 2 || !(v.any Char.isAlpha) then true
    else false

/-- `_validate` of bill_extractor.py lines 307-327 over the
`VALUE_VALIDATORS` table (lines 281-304); the IGNORECASE regexes are
translated check by check. -/
def pyValidate (fieldName : String) (value : String) : Bool :=
  let v := pyStrip value.data
  if v.isEmpty then false
  else if fieldName = "patient_name" then
    decide (3 ≤ v.length) && decide (v.length ≤ 100)
    && !pAtStart (pSeq (pRep 2 Char.isAlpha) (pRep 6 Char.isDigit)) v
    && !(allDigits v && decide (10 ≤ v.length))
    && !allDigits v
    && hasRun 2 Char.isAlpha v
  else if fieldName = "patient_mrn" then
    decide (5 ≤ v.length) && decide (v.length ≤ 20) && hasRun 5 Char.isDigit v
  else if fieldName = "billing_date" then
    decide (8 ≤ v.length) && decide (v.length ≤ 30)
    && (pSearchAny (pSeq (pRep 2 Char.isDigit) (pSeq (pCls (fun c => c = '-' || c = '/'))
          (pSeq (pRep 2 Char.isDigit) (pSeq (pCls (fun c => c = '-' || c = '/'))
            (pRep 4 Char.isDigit))))) v
       || pSearchAny (pSeq (pRep 4 Char.isDigit) (pSeq (pCls (fun c => c = '-' || c = '/'))
          (pSeq (pRep 2 Char.isDigit) (pSeq (pCls (fun c => c = '-' || c = '/'))
            (pRep 2 Char.isDigit))))) v)
  else if fieldName = "bill_number" then
    decide (5 ≤ v.length) && decide (v.length ≤ 40)
    && (pSearchAny (pSeq (pRep 2 Char.isAlpha) (pSeq (fun s => pStar Char.isAlpha s)
          (pCls Char.isDigit))) v
       || pSearchAny (pSeq (pPlus Char.isDigit) (pSeq (pPlus Char.isAlpha)
          (pCls Char.isDigit))) v
       || pSearchAny (pSeq (pPlus Char.isAlpha) (pSeq (pCls (fun c => c = '-' || c = '/'))
          (pCls Char.isDigit))) v)
  else true

/-- `HeaderAggregator` state: locked candidates per field. -/
structure HeaderAgg where
  best : List (String × Candidate)
  locked : List String
  deriving DecidableEq, Inhabited

/-- The fresh aggregator of `HeaderAggregator.__init__`. -/
def emptyAgg : HeaderAgg := ⟨[], []⟩

/-- `HeaderAggregator.offer` lines 373-388: garbage filter, validation,
first-valid-wins locking. -/
def offerCand (a : HeaderAgg) (cand : Candidate) : HeaderAgg × Bool :=
  if is_garbage_value cand.value then (a, false)
  else if !pyValidate cand.field cand.value then (a, false)
  else if a.locked.contains cand.field then (a, false)
  else ({ best := a.best ++ [(cand.field, cand)], locked := a.locked ++ [cand.field] }, true)

/-- Fold a stream of offered candidates into the aggregator, as
`HeaderParser.parse` does over the document lines. -/
def offerAll (cands : List Candidate) : HeaderAgg :=
  cands.foldl (fun a c => (offerCand a c).1) emptyAgg

/-- `HeaderAggregator.finalize` restricted to one field:
`header_locked.get(field)`. -/
def lockedValue (a : HeaderAgg) (fieldName : String) : Option String :=
  (a.best.find? (fun kv => kv.1 == fieldName)).map (fun kv => kv.2.value)

/-- The patient-name line of `HeaderParser._finalize` (line 711):
`header_locked.get("patient_name") or "UNKNOWN"`; Python `or` falls back for
a missing key and for an empty string alike. -/
def finalizePatientName (a : HeaderAgg) : String :=
  match lockedValue a "patient_name" with
  | none => "UNKNOWN"
  | some v => if v = "" then "UNKNOWN" else v

/-! ## Column parser (src/app/extraction/column_parser.py) -/

/-- `IDENTIFIER_KEYWORDS` of column_parser.py lines 31-55, pattern by pattern
(lowercase literals: the window text is lowercased before searching). -/
def identifierPatterns : List Pat :=
  [ pSeq (pLit "bill".data) (pSeq (pPlus isSpc)
      (pAlt [pLit "no".data, pLit "number".data, pLit "#".data])),
    pSeq (pLit "invoice".data) (pSeq (pPlus isSpc)
      (pAlt [pLit "no".data, pLit "number".data, pLit "#".data])),
    pSeq (pLit "receipt".data) (pSeq (pPlus isSpc)
      (pAlt [pLit "no".data, pLit "number".data, pLit "#".data])),
    pSeq (pLit "visit".data) (pSeq (pPlus isSpc)
      (pAlt [pLit "no".data, pLit "number".data])),
    pSeq (pLit "mrn".data) pBdry,
    pSeq (pLit "uhid".data) pBdry,
    pSeq (pLit "patient".data) (pSeq (pPlus isSpc) (pSeq (pLit "id".data) pBdry)),
    pSeq (pLit "reg".data) (pSeq (pOpt (pLit ['.'])) (pSeq (pPlus isSpc)
      (pAlt [pLit "no".data, pLit "number".data]))),
    pSeq (pLit "phone".data) pBdry,
    pSeq (pLit "mobile".data) pBdry,
    pSeq (pLit "contact".data) pBdry,
    pSeq (pLit "age".data) pBdry,
    pSeq (pLit "dob".data) pBdry,
    pSeq (pLit "date".data) (pSeq (pPlus isSpc) (pSeq (pLit "of".data)
      (pSeq (pPlus isSpc) (pSeq (pLit "birth".data) pBdry)))),
    pSeq (pLit "pin".data) (pSeq (fun s => pStar isSpc s) (pSeq (pLit "code".data) pBdry)),
    pSeq (pLit "gsti".data) (pSeq (pOpt (pLit "n".data)) pBdry) ]

/-- `has_identifier_context` of column_parser.py lines 84-98: search the
identifier keywords in the lowercased final 50-character window. -/
def has_identifier_context (text : Str) : Bool :=
  if text.isEmpty then false
  else
    let ct := lowerL (text.drop (text.length - 50))
    identifierPatterns.any (fun p => pSearchB p ct)

/-- `MAX_LINE_ITEM_AMOUNT = 1e7`. -/
def MAX_LINE_ITEM_AMOUNT : ℚ := 10 ^ 7

/-- Modelled from the spec: `is_suspect_numeric` of numeric_guards.py (the
file is absent from src/): a numeric string is suspect when it is a bare
phone-length digit run (10 to 13 digits), an MRN-like digit run (11 or more
digits), or a DD/MM/YYYY or ISO date (spec section 4.A). -/
def is_suspect_numeric (s : Str) : Bool :=
  (allDigits s && decide (10 ≤ s.length) && decide (s.length ≤ 13))
  || (allDigits s && decide (11 ≤ s.length))
  || pFull (pSeq (pRep 2 Char.isDigit) (pSeq (pCls (fun c => c = '-' || c = '/'))
      (pSeq (pRep 2 Char.isDigit) (pSeq (pCls (fun c => c = '-' || c = '/'))
        (pRep 4 Char.isDigit))))) s
  || pFull (pSeq (pRep 4 Char.isDigit) (pSeq (pCls (fun c => c = '-' || c = '/'))
      (pSeq (pRep 2 Char.isDigit) (pSeq (pCls (fun c => c = '-' || c = '/'))
        (pRep 2 Char.isDigit))))) s

/-- Numeric value of a digit run. -/
def digitsVal (ds : Str) : ℕ := ds.foldl (fun acc c => acc * 10 + (c.toNat - 48)) 0

/-- Decimal number syntax accepted by Python `float` on cleaned column text:
an optional sign, an integer part, an optional fractional part, with at least
one digit overall. -/
def parseNumber (t : Str) : Option ℚ :=
  let signAndRest : ℚ × Str :=
    match t with
    | '-' :: r => (-1, r)
    | '+' :: r => (1, r)
    | _ => (1, t)
  let sign := signAndRest.1
  let t1 := signAndRest.2
  let intPart := t1.takeWhile Char.isDigit
  let rest := t1.dropWhile Char.isDigit
  match rest with
  | [] => if intPart.isEmpty then none else some (sign * digitsVal intPart)
  | '.' :: frac =>
      if frac.all Char.isDigit && !(intPart.isEmpty && frac.isEmpty) then
        some (sign * ((digitsVal intPart : ℚ) + (digitsVal frac : ℚ) / (10 ^ frac.length)))
      else none
  | _ => none

/-- Modelled from the spec: `extract_numeric_value` of numeric_guards.py (the
file is absent from src/): "parse as a number (strip rupee, dollar, comma and
space characters and thousand separators)" (spec section 4.E). -/
def extract_numeric_value (s : Str) : Option ℚ :=
  parseNumber (s.filter (fun c => !(c = '₹' || c = '$' || c = ',' || isSpc c)))

/-- `parse_numeric_column` of column_parser.py lines 162-192: reject empty
text, identifier context, suspect numerics, unparsable text, and out-of-range
values. -/
def parse_numeric_column (text preceding_context : Str) : Option ℚ :=
  if (pyStrip text).isEmpty then none
  else if has_identifier_context preceding_context then none
  else if is_suspect_numeric (pyStrip text) then none
  else
    match extract_numeric_value text with
    | none => none
    | some v => if MAX_LINE_ITEM_AMOUNT < v || v < 0 then none else some v

/-- The column loop of `parse_item_columns` (lines 223-237): skip blank
columns and columns that are substrings of the description; parse the rest
against the accumulated context, which grows by a space and the column text
for every non-skipped column. -/
def colsLoop (description : Str) : List Str → Str → List ℚ
  | [], _ => []
  | col :: rest, ctx =>
    if (pyStrip col).isEmpty then colsLoop description rest ctx
    else if containsSub (pyStrip col) description then colsLoop description rest ctx
    else
      let tail := colsLoop description rest (ctx ++ ' ' :: col)
      match parse_numeric_column col ctx with
      | some v => v :: tail
      | none => tail

/-- `ParsedItem` dataclass of column_parser.py (lines 121-131). -/
structure ParsedItem where
  description : String
  qty : Option ℚ
  unit_rate : Option ℚ
  pdf_amount : Option ℚ
  computed_amount : Option ℚ
  final_amount : Option ℚ
  discrepancy : Bool
  deriving DecidableEq, Inhabited

/-- `ParsedItem.__post_init__` lines 133-159: derive `computed_amount` from
qty and rate, then resolve `final_amount` and `discrepancy` by the B2 rule
with 0.02 tolerance. -/
def mkParsedItem (description : String) (qty unit_rate pdf_amount : Option ℚ) :
    ParsedItem :=
  let computed : Option ℚ :=
    match qty, unit_rate with
    | some q, some r => some (round2 (q * r))
    | _, _ => none
  match pdf_amount, computed with
  | some p, some cv =>
      if 2/100 < |p - cv| then
        ⟨description, qty, unit_rate, pdf_amount, computed, some p, true⟩
      else
        ⟨description, qty, unit_rate, pdf_amount, computed, some cv, false⟩
  | some p, none => ⟨description, qty, unit_rate, pdf_amount, computed, some p, false⟩
  | none, some cv => ⟨description, qty, unit_rate, pdf_amount, computed, some cv, false⟩
  | none, none => ⟨description, qty, unit_rate, pdf_amount, computed, none, false⟩

/-- The accepted numeric columns of `parse_item_columns` (lines 219-237):
the initial context is the first 100 characters of the full text when it is
nonempty, of the description otherwise. -/
def itemNumericCols (description : String) (columns : List String)
    (full_text : String) : List ℚ :=
  let ctx0 := if !full_text.data.isEmpty then full_text.data.take 100
              else description.data.take 100
  colsLoop description.data (columns.map String.data) ctx0

/-- `parse_item_columns` of column_parser.py lines 195-274: dispatch on the
number of accepted numeric columns (an empty description yields no item). -/
def parse_item_columns (description : String) (columns : List String)
    (full_text : String) : Option ParsedItem :=
  if (pyStrip description.data).isEmpty then none
  else
    let stripped : String := ⟨pyStrip description.data⟩
    match itemNumericCols description columns full_text with
    | [] => none
    | [x] => some (mkParsedItem stripped (some 1) none (some x))
    | [x1, x2] =>
        if x1 < 100 then some (mkParsedItem stripped (some x1) none (some x2))
        else some (mkParsedItem stripped (some 1) (some x1) (some x2))
    | x1 :: x2 :: x3 :: rest =>
        let rev := (x1 :: x2 :: x3 :: rest).reverse
        some (mkParsedItem stripped (some (rev.getD 2 0)) (some (rev.getD 1 0))
          (some (rev.getD 0 0)))

/-! ## Semantic matcher exact fast path (src/backend/app/verifier/matcher.py)
and verifier category loop (src/backend/app/verifier/verifier.py) -/

/-- Collapse runs of spaces to single spaces. -/
def collapseSpacesAux : Bool → Str → Str
  | _, [] => []
  | prevSpace, c :: r =>
    if c = ' ' then
      if prevSpace then collapseSpacesAux true r
      else ' ' :: collapseSpacesAux true r
    else c :: collapseSpacesAux false r

/-- Collapse runs of spaces to single spaces (entry point). -/
def collapseSpaces (s : Str) : Str := collapseSpacesAux false s

/-- Modelled from the spec: the query normalisation `match_item` applies
before matching — `extract_medical_core` of medical_core_extractor.py
followed by `normalize_bill_item_text` of text_normalizer.py, both files
absent from src/.  Spec section 4.J: the final core is "lower-cased,
non-alphanumerics collapsed to single spaces, trimmed". -/
def normalizedCore (s : Str) : Str :=
  pyStrip (collapseSpaces (s.map (fun c => if c.isAlphanum then loChar c else ' ')))

/-- Python `.lower().strip()` as used on both sides of the exact comparison. -/
def pyLowerStrip (s : Str) : Str := pyStrip (lowerL s)

/-- Where `match_item` stands when the exact-match scan has finished:
either the fast path returned, or the code proceeds to request an embedding
for the semantic search. -/
inductive MatchPhase
  | fastPath (matched_text : String) (similarity : ℚ) (idx : ℕ) (item : TieUpItem)
  | needsEmbedding
  deriving DecidableEq, Inhabited

/-- `item_name_for_matching` of `match_item` (matcher.py lines 594-611): the
normalised medical core of the query, falling back to the raw name when the
normalised form is empty. -/
def itemNameForMatching (item_name : String) : Str :=
  let core := normalizedCore item_name.data
  if !core.isEmpty then core else item_name.data

/-- The exact-match scan of `match_item` (matcher.py lines 630-631): the
first indexed text equal to the query after `.lower().strip()` on both
sides. -/
def exactFastScan (q : Str) : List (String × TieUpItem) → Option (ℕ × String × TieUpItem)
  | [] => none
  | (t, it) :: rest =>
      if pyLowerStrip q = pyLowerStrip t.data then some (0, t, it)
      else (exactFastScan q rest).map (fun r => (r.1 + 1, r.2))

/-- `match_item` (matcher.py lines 556-641) up to the first point where an
embedding would be requested: the query is replaced by its normalised medical
core (`item_name_for_matching`, falling back to the raw name when the
normalised form is empty), then the exact-match fast path scans the indexed
`(text, item)` pairs; a hit returns similarity exactly 1, a miss means the
semantic search — and hence an embedding call — is next. -/
def match_item_exact_phase (item_name : String)
    (index : List (String × TieUpItem)) : MatchPhase :=
  match exactFastScan (itemNameForMatching item_name) index with
  | some (i, t, it) => .fastPath t 1 i it
  | none => .needsEmbedding

/-- `CATEGORY_SOFT_THRESHOLD` (matcher.py line 68):
`float(os.getenv("CATEGORY_SOFT_THRESHOLD", "0.65"))` — the default
configuration value. -/
def CATEGORY_SOFT_THRESHOLD : ℚ := 65 / 100

/-- `CategoryMatch` of matcher.py as consumed by `_verify_category`:
`matched_text` and `similarity` (index and category reference follow
`matched_text`). -/
structure CategoryMatch where
  matched_text : Option String
  similarity : ℚ
  deriving DecidableEq, Inhabited

/-- `BillItem` of models.py. -/
structure BillItem where
  item_name : String
  quantity : ℚ
  amount : ℚ
  deriving DecidableEq, Inhabited

/-- `BillCategory` of models.py. -/
structure BillCategory where
  category_name : String
  items : List BillItem
  deriving DecidableEq, Inhabited

/-- `CategoryVerificationResult` of models.py. -/
structure CategoryVerificationResult where
  category : String
  matched_category : Option String
  category_similarity : ℚ
  items : List ItemVerificationResult
  deriving DecidableEq, Inhabited

/-- `BillVerifier._verify_category` (verifier.py lines 334-396).  Its two
effectful collaborators — `self.matcher.match_category` and
`self._verify_item` — are passed as functions.  The low-similarity branches
of the source only log; items are processed unconditionally with the matched
category name. -/
def verify_category (matchCategory : String → CategoryMatch)
    (verifyItem : BillItem → Option String → ItemVerificationResult)
    (bc : BillCategory) : CategoryVerificationResult :=
  let cm := matchCategory bc.category_name
  { category := bc.category_name
    matched_category := cm.matched_text
    category_similarity := cm.similarity
    items := bc.items.map (fun it => verifyItem it cm.matched_text) }

/-! ## Arithmetic helper lemmas -/

theorem roundHalfEven_intCast (n : ℤ) : roundHalfEven (n : ℚ) = n := by
  simp only [roundHalfEven, Int.floor_intCast, sub_self]
  norm_num

theorem round2_isDec2 (q : ℚ) : IsDec2 (round2 q) := ⟨roundHalfEven (q * 100), rfl⟩

theorem round2_eq_self {x : ℚ} (h : IsDec2 x) : round2 x = x := by
  obtain ⟨n, rfl⟩ := h
  unfold round2
  rw [div_mul_cancel₀ _ (by norm_num : (100 : ℚ) ≠ 0), roundHalfEven_intCast]

theorem isDec2_sub {x y : ℚ} (hx : IsDec2 x) (hy : IsDec2 y) : IsDec2 (x - y) := by
  obtain ⟨n, rfl⟩ := hx
  obtain ⟨m, rfl⟩ := hy
  exact ⟨n - m, by push_cast; ring⟩

theorem isDec2_add {x y : ℚ} (hx : IsDec2 x) (hy : IsDec2 y) : IsDec2 (x + y) := by
  obtain ⟨n, rfl⟩ := hx
  obtain ⟨m, rfl⟩ := hy
  exact ⟨n + m, by push_cast; ring⟩

theorem isDec2_zero : IsDec2 0 := ⟨0, by norm_num⟩

theorem isDec2_allowed (t : TieUpItem) (q : ℚ) : IsDec2 (calculate_allowed_amount t q) := by
  unfold calculate_allowed_amount
  cases t.type <;> exact round2_isDec2 _

/-! ## Claims C1 and C2: the backend enum lacks the UNCLASSIFIED member -/

/-- Claim C1 (code_bug evidence).  The claim states that for every
non-excluded status `calculate_financial_contribution` returns a balanced
`FinancialContribution`; but for an item with the legacy `MISMATCH` status —
which the function's own code comments and the repository's tests handle as
"UNCLASSIFIED or MISMATCH: no policy match" — the membership test on line 204
evaluates `VerificationStatus.UNCLASSIFIED`, which is not a member of the
enum declared in models.py, so the call raises AttributeError instead of
returning a contribution. -/
theorem calc_contribution_mismatch_attribute_error
    (item : ItemVerificationResult) (h : item.status = .MISMATCH) :
    calculate_financial_contribution item = .error .attributeError := by
  obtain ⟨bi, mi, st, ba, aa, ea⟩ := item
  simp only at h
  subst h
  rfl

/-- Witness for C1: a concrete MISMATCH item makes the calculator raise. -/
theorem calc_contribution_mismatch_attribute_error_witness :
    calculate_financial_contribution
      { bill_item := "X-Ray", matched_item := none, status := .MISMATCH,
        bill_amount := 100, allowed_amount := 0, extra_amount := 0 }
      = .error .attributeError :=
  calc_contribution_mismatch_attribute_error _ rfl

/-- Claim C2 (code_bug evidence).  The claim states that `check_price` with
no matched tie-up item returns an UNCLASSIFIED result without raising, and
that UNCLASSIFIED is a member of the `VerificationStatus` sum; but the enum
declared in models.py has members GREEN, RED, MISMATCH,
ALLOWED_NOT_COMPARABLE and IGNORED_ARTIFACT only, so the
`VerificationStatus.UNCLASSIFIED` lookup in the no-match branch raises
AttributeError for every bill amount and quantity. -/
theorem check_price_none_attribute_error (bill_amount quantity : ℚ) :
    check_price bill_amount none quantity = .error .attributeError := rfl

/-! ## Claim C3: price check against a matched tie-up item -/

/-- Claim C3.  For every matched tie-up item and quantity the allowed amount
is `round2 (rate * qty)` for unit pricing and `round2 rate` for service and
bundle pricing; `check_price` never raises on a matched item and returns
GREEN with zero extra exactly when the rounded bill is within the allowed
amount, RED otherwise with the extra amount equal to the rounded difference
(`round2 bill - allowed`, which its own rounding leaves unchanged). -/
theorem check_price_matched_spec (bill quantity : ℚ) (t : TieUpItem)
    (_hr : 0 ≤ t.rate) :
    (t.type = .UNIT → calculate_allowed_amount t quantity = round2 (t.rate * quantity)) ∧
    ((t.type = .SERVICE ∨ t.type = .BUNDLE) →
      calculate_allowed_amount t quantity = round2 t.rate) ∧
    ∃ r : PriceCheckResult,
      check_price bill (some t) quantity = .ok r ∧
      r.bill_amount = round2 bill ∧
      r.allowed_amount = calculate_allowed_amount t quantity ∧
      (r.status = .GREEN ↔ round2 bill ≤ calculate_allowed_amount t quantity) ∧
      (r.status = .GREEN → r.extra_amount = 0) ∧
      (r.status = .RED ↔ ¬ round2 bill ≤ calculate_allowed_amount t quantity) ∧
      (r.status = .RED →
        r.extra_amount = round2 (round2 bill - calculate_allowed_amount t quantity) ∧
        r.extra_amount = round2 bill - calculate_allowed_amount t quantity) := by
  refine ⟨?_, ?_, ?_⟩
  · intro h
    unfold calculate_allowed_amount
    rw [h]
  · rintro (h | h) <;> · unfold calculate_allowed_amount; rw [h]
  · have hcp : check_price bill (some t) quantity =
        if round2 bill ≤ calculate_allowed_amount t quantity then
          Except.ok { status := .GREEN, bill_amount := round2 bill,
                      allowed_amount := calculate_allowed_amount t quantity,
                      extra_amount := 0 }
        else
          Except.ok { status := .RED, bill_amount := round2 bill,
                      allowed_amount := calculate_allowed_amount t quantity,
                      extra_amount := round2 (round2 bill - calculate_allowed_amount t quantity) } := rfl
    by_cases hb : round2 bill ≤ calculate_allowed_amount t quantity
    · rw [hcp, if_pos hb]
      refine ⟨_, rfl, rfl, rfl, ?_, ?_, ?_, ?_⟩
      · simp [hb]
      · intro _; rfl
      · simp [hb]
      · intro hcon; simp at hcon
    · rw [hcp, if_neg hb]
      refine ⟨_, rfl, rfl, rfl, ?_, ?_, ?_, ?_⟩
      · simp [hb]
      · intro hcon; simp at hcon
      · simp [hb]
      · intro _
        constructor
        · rfl
        · exact round2_eq_self (isDec2_sub (round2_isDec2 bill) (isDec2_allowed t quantity))

/-- Witness for C3 at the spec's own scenario: CT scan billed 1200 against a
service rate of 800 comes back RED with extra 400. -/
theorem check_price_matched_spec_witness :
    (0 : ℚ) ≤ (800 : ℚ) ∧
    ∃ r : PriceCheckResult,
      check_price 1200 (some { item_name := "CT SCAN", rate := 800, type := .SERVICE })
        1 = .ok r ∧ r.status = .RED ∧ r.extra_amount = 400 := by
  obtain ⟨-, hsb, r, hok, -, -, -, -, hrediff, hred⟩ :=
    check_price_matched_spec 1200 1
      { item_name := "CT SCAN", rate := 800, type := .SERVICE } (by norm_num)
  have hallowed :
      calculate_allowed_amount { item_name := "CT SCAN", rate := 800, type := .SERVICE } 1
        = 800 := by
    rw [hsb (Or.inl rfl)]
    exact round2_eq_self ⟨80000, by norm_num⟩
  have h1200 : round2 (1200 : ℚ) = 1200 := round2_eq_self ⟨120000, by norm_num⟩
  have hst : r.status = .RED := by
    refine hrediff.mpr ?_
    rw [h1200, hallowed]
    norm_num
  obtain ⟨-, hx⟩ := hred hst
  refine ⟨by norm_num, r, hok, hst, ?_⟩
  rw [hx, h1200, hallowed]
  norm_num

/-! ## Claim C7: section lookup returns the greatest event key at or below
the query -/

theorem keyLE_refl' (a : ℤ × ℚ) : keyLE a a := IsRefl.refl a

theorem keyLE_trans' {a b c : ℤ × ℚ} (h1 : keyLE a b) (h2 : keyLE b c) :
    keyLE a c := IsTrans.trans a b c h1 h2

/-- In a list sorted by event key, the count of events with key at or below a
query locates the last such event: zero means none qualifies, and otherwise
the element just before the count position qualifies and dominates every
qualifying element. -/
theorem sorted_last_le_aux (q : ℤ × ℚ) :
    ∀ l : List SectionEvent, l.Sorted eventLE →
      (l.countP (fun e => decide (keyLE e.key q)) = 0 → ∀ e ∈ l, ¬ keyLE e.key q) ∧
      (l.countP (fun e => decide (keyLE e.key q)) ≠ 0 →
        ∃ m, l.get? (l.countP (fun e => decide (keyLE e.key q)) - 1) = some m ∧
          keyLE m.key q ∧ ∀ e ∈ l, keyLE e.key q → keyLE e.key m.key)
  | [], _ => by simp
  | a :: l, hs => by
    obtain ⟨hhead, htail⟩ := List.sorted_cons.mp hs
    have ih := sorted_last_le_aux q l htail
    by_cases ha : keyLE a.key q
    · have hc : (a :: l).countP (fun e => decide (keyLE e.key q)) =
          l.countP (fun e => decide (keyLE e.key q)) + 1 := by
        simp [List.countP_cons, ha]
      refine ⟨fun h0 => absurd (hc ▸ h0) (by omega), fun _ => ?_⟩
      by_cases hl0 : l.countP (fun e => decide (keyLE e.key q)) = 0
      · refine ⟨a, ?_, ha, ?_⟩
        · rw [hc, hl0]
          rfl
        · intro e he hek
          rcases List.mem_cons.mp he with rfl | he
          · exact keyLE_refl' _
          · exact absurd hek (ih.1 hl0 e he)
      · obtain ⟨m, hm, hmk, hmax⟩ := ih.2 hl0
        refine ⟨m, ?_, hmk, ?_⟩
        · rw [hc, Nat.add_sub_cancel,
            show l.countP (fun e => decide (keyLE e.key q)) =
              (l.countP (fun e => decide (keyLE e.key q)) - 1) + 1 from
              (Nat.succ_pred_eq_of_pos (Nat.pos_of_ne_zero hl0)).symm,
            List.get?_cons_succ]
          exact hm
        · intro e he hek
          rcases List.mem_cons.mp he with rfl | he
          · have hm_mem : m ∈ l := List.get?_mem hm
            exact hhead m hm_mem
          · exact hmax e he hek
    · have hall : ∀ e ∈ l, ¬ keyLE e.key q := fun e he hek =>
        ha (keyLE_trans' (hhead e he) hek)
      have hc : (a :: l).countP (fun e => decide (keyLE e.key q)) = 0 := by
        simp only [List.countP_cons, decide_eq_true_eq]
        rw [if_neg ha, List.countP_eq_zero.mpr (by simpa using hall)]
      refine ⟨fun _ e he hek => ?_, fun h => absurd hc h⟩
      rcases List.mem_cons.mp he with rfl | he
      · exact ha hek
      · exact hall e he hek

/-- Claim C7.  `get_section_at` returns None exactly when no recorded event
has key at or below the query in the lexicographic `(page, y)` order, and
otherwise returns the section of an event whose key is at or below the query
and at or above every recorded key that is at or below the query — in
particular a section header recorded on an earlier page persists onto later
pages with no further header. -/
theorem get_section_at_spec (events : List SectionEvent) (page : ℤ) (y : ℚ) :
    (get_section_at events page y = none → ∀ e ∈ events, ¬ keyLE e.key (page, y)) ∧
    (∀ s, get_section_at events page y = some s →
      ∃ e, e ∈ events ∧ e.sec = s ∧ keyLE e.key (page, y) ∧
        ∀ e', e' ∈ events → keyLE e'.key (page, y) → keyLE e'.key e.key) := by
  have hperm := List.perm_insertionSort eventLE events
  have hsorted := List.sorted_insertionSort eventLE events
  have main := sorted_last_le_aux (page, y) (sortedEvents events) hsorted
  have hdef : get_section_at events page y =
      if (sortedEvents events).countP (fun e => decide (keyLE e.key (page, y))) = 0
      then none
      else ((sortedEvents events).get?
        ((sortedEvents events).countP (fun e => decide (keyLE e.key (page, y))) - 1)).map
          SectionEvent.sec := rfl
  by_cases hc : (sortedEvents events).countP (fun e => decide (keyLE e.key (page, y))) = 0
  · rw [hdef, if_pos hc]
    refine ⟨fun _ e he => main.1 hc e ?_, fun s hs => by simp at hs⟩
    exact (hperm.mem_iff).mpr he
  · rw [hdef, if_neg hc]
    obtain ⟨m, hm, hmk, hmax⟩ := main.2 hc
    refine ⟨fun h => ?_, fun s hs => ?_⟩
    · rw [hm] at h
      simp at h
    rw [hm] at hs
    simp only [Option.map_some'] at hs
    refine ⟨m, ?_, by simpa using hs, hmk, ?_⟩
    · exact (hperm.mem_iff).mp (List.get?_mem hm)
    · intro e' he' hek
      exact hmax e' ((hperm.mem_iff).mpr he') hek

/-- Witness for C7: the spec's cross-page scenario — a DIAGNOSTICS header at
page 0, y 150 persists to page 1, y 50. -/
theorem get_section_at_spec_witness :
    ∃ e, e ∈ [({ page := 0, y := 150, sec := "diagnostics_tests", text := "DIAGNOSTICS" } : SectionEvent)] ∧
      e.sec = "diagnostics_tests" ∧ keyLE e.key (1, 50) ∧
      ∀ e', e' ∈ [({ page := 0, y := 150, sec := "diagnostics_tests", text := "DIAGNOSTICS" } : SectionEvent)] →
        keyLE e'.key (1, 50) → keyLE e'.key e.key := by
  refine (get_section_at_spec
    [{ page := 0, y := 150, sec := "diagnostics_tests", text := "DIAGNOSTICS" }]
    1 50).2 "diagnostics_tests" ?_
  rfl

/-! ## Claim C10: the finalized patient name is never empty -/

theorem value_ne_empty_of_not_garbage {v : String}
    (h : is_garbage_value v = false) : v ≠ "" := by
  intro hv
  subst hv
  exact absurd h (by decide)

/-- `offer` preserves the invariant that every locked value is nonempty. -/
theorem offer_preserves_nonempty (a : HeaderAgg) (c : Candidate)
    (h : ∀ kv ∈ a.best, kv.2.value ≠ "") :
    ∀ kv ∈ ((offerCand a c).1).best, kv.2.value ≠ "" := by
  unfold offerCand
  split
  · exact h
  · rename_i hg
    split
    · exact h
    · split
      · exact h
      · intro kv hkv
        rcases List.mem_append.mp hkv with hkv | hkv
        · exact h kv hkv
        · rcases List.mem_singleton.mp hkv with rfl
          exact value_ne_empty_of_not_garbage (by simpa using hg)

/-- Every value locked by a stream of offers is nonempty. -/
theorem offerAll_nonempty (cands : List Candidate) :
    ∀ kv ∈ (offerAll cands).best, kv.2.value ≠ "" := by
  have key : ∀ (cs : List Candidate) (a : HeaderAgg),
      (∀ kv ∈ a.best, kv.2.value ≠ "") →
      ∀ kv ∈ (cs.foldl (fun a c => (offerCand a c).1) a).best, kv.2.value ≠ "" := by
    intro cs
    induction cs with
    | nil => intro a ha; simpa using ha
    | cons c cs ih =>
        intro a ha
        exact ih _ (offer_preserves_nonempty a c ha)
  exact key cands emptyAgg (by simp [emptyAgg])

/-- Claim C10.  For every stream of header candidates offered during
extraction, the finalized patient name is nonempty: it is the locked value
when a `patient_name` candidate was accepted (accepted values pass the
garbage filter, hence are nonempty) and the literal "UNKNOWN" when no
candidate locked the field. -/
theorem patient_name_finalize_spec (cands : List Candidate) :
    finalizePatientName (offerAll cands) ≠ "" ∧
    (lockedValue (offerAll cands) "patient_name" = none →
      finalizePatientName (offerAll cands) = "UNKNOWN") ∧
    (∀ v, lockedValue (offerAll cands) "patient_name" = some v →
      finalizePatientName (offerAll cands) = v) := by
  refine ⟨?_, ?_, ?_⟩
  · unfold finalizePatientName
    cases hlv : lockedValue (offerAll cands) "patient_name" with
    | none => simp
    | some v =>
        by_cases hv : v = ""
        · simp [hv]
        · simp [hv]
  · intro h
    unfold finalizePatientName
    rw [h]
  · intro v hv
    have hne : v ≠ "" := by
      unfold lockedValue at hv
      cases hf : (offerAll cands).best.find? (fun kv => kv.1 == "patient_name") with
      | none => rw [hf] at hv; simp at hv
      | some kv =>
          rw [hf] at hv
          simp only [Option.map_some'] at hv
          have hmem := List.mem_of_find?_eq_some hf
          have hveq : kv.2.value = v := Option.some.inj hv
          rw [← hveq]
          exact offerAll_nonempty cands kv hmem
    unfold finalizePatientName
    rw [hv]
    simp [hne]

/-- Witness for C10 at the spec's first scenario: a phone-number line offers
the digits 9876543210 as a name, the validator rejects it, no lock happens,
and the finalized patient name is the literal "UNKNOWN". -/
theorem patient_name_finalize_spec_witness :
    finalizePatientName
      (offerAll [{ field := "patient_name", value := "9876543210", score := 1, page := 0 }])
      = "UNKNOWN" :=
  (patient_name_finalize_spec
    [{ field := "patient_name", value := "9876543210", score := 1, page := 0 }]).2.1
    (by decide)

/-! ## Claim C9: category soft threshold and unconditional item matching -/

/-- Claim C9 counterexample: the category soft threshold constant of
matcher.py defaults to 0.65, not 0.50 as the claim states. -/
theorem category_soft_threshold_not_half : ¬ CATEGORY_SOFT_THRESHOLD = 1/2 := by
  norm_num [CATEGORY_SOFT_THRESHOLD]

/-- Claim C9 as amended: the soft threshold constant equals 0.65 (a literal
0.50 bound appears only in a logging branch of `_verify_category`), and item
verification runs for every item of a processed category regardless of the
category similarity score: the items are exactly the per-item verifications
against the matched category text, so two category matchers that agree on
the matched text — whatever similarities they assign — yield identical item
lists of full length. -/
theorem verify_category_processes_all
    (mc mc' : String → CategoryMatch)
    (vi : BillItem → Option String → ItemVerificationResult)
    (bc : BillCategory)
    (h : (mc bc.category_name).matched_text = (mc' bc.category_name).matched_text) :
    CATEGORY_SOFT_THRESHOLD = 65/100 ∧
    (verify_category mc vi bc).items =
      bc.items.map (fun it => vi it (mc bc.category_name).matched_text) ∧
    (verify_category mc vi bc).items.length = bc.items.length ∧
    (verify_category mc vi bc).items = (verify_category mc' vi bc).items := by
  refine ⟨rfl, rfl, ?_, ?_⟩
  · simp [verify_category]
  · simp only [verify_category, h]

/-- Witness for C9: category matchers with similarities 0.2 and 0.9 for the
same matched category verify the same single item identically. -/
theorem verify_category_processes_all_witness :
    (verify_category (fun _ => { matched_text := some "diagnostics", similarity := 2/10 })
      (fun it c => { bill_item := it.item_name, matched_item := c, status := .GREEN,
                     bill_amount := it.amount, allowed_amount := 0, extra_amount := 0 })
      { category_name := "diag", items := [{ item_name := "ECG", quantity := 1, amount := 300 }] }).items =
    (verify_category (fun _ => { matched_text := some "diagnostics", similarity := 9/10 })
      (fun it c => { bill_item := it.item_name, matched_item := c, status := .GREEN,
                     bill_amount := it.amount, allowed_amount := 0, extra_amount := 0 })
      { category_name := "diag", items := [{ item_name := "ECG", quantity := 1, amount := 300 }] }).items :=
  (verify_category_processes_all _ _ _ _ rfl).2.2.2

/-! ## Claim C8: the exact-match fast path compares the normalised query -/

/-- A failed exact scan means no indexed text matches the query after
case folding and trimming. -/
theorem exactFastScan_none {q : Str} : ∀ {l : List (String × TieUpItem)},
    exactFastScan q l = none → ∀ p ∈ l, pyLowerStrip q ≠ pyLowerStrip p.1.data
  | [], _, p, hp => by simp at hp
  | (t, it) :: rest, h, p, hp => by
      unfold exactFastScan at h
      by_cases he : pyLowerStrip q = pyLowerStrip t.data
      · rw [if_pos he] at h
        exact absurd h (by simp)
      · rw [if_neg he] at h
        rcases List.mem_cons.mp hp with rfl | hp
        · exact he
        · have hrest : exactFastScan q rest = none := by
            cases hr : exactFastScan q rest with
            | none => rfl
            | some r => rw [hr] at h; simp at h
          exact exactFastScan_none hrest p hp

/-- Claim C8 counterexample.  The claim says indexing any string `s` and
querying `s` returns similarity exactly 1.0 by string comparison before any
embedding call; but `match_item` compares the *normalised medical core* of
the query against the raw indexed texts.  Indexing the literal "X-RAY CHEST"
and querying the very same string misses the exact fast path — the
normalised query "x ray chest" differs from the indexed "x-ray chest" after
case folding and trimming — so the code proceeds to request an embedding. -/
theorem match_item_exact_phase_counterexample :
    match_item_exact_phase "X-RAY CHEST"
      [("X-RAY CHEST", { item_name := "X-RAY CHEST", rate := 450, type := .SERVICE })]
      = .needsEmbedding := by decide

/-- Claim C8 as amended: whenever the normalised medical core of the query
(`item_name_for_matching`) equals some indexed string after case folding and
trimming — in particular whenever normalisation leaves the indexed string
unchanged — the exact fast path fires before any embedding call and returns
a match with similarity exactly 1. -/
theorem match_item_exact_phase_fast (s : String) (index : List (String × TieUpItem))
    (t : String) (it : TieUpItem) (hmem : (t, it) ∈ index)
    (hnorm : pyLowerStrip (itemNameForMatching s) = pyLowerStrip t.data) :
    ∃ t' i it', match_item_exact_phase s index = .fastPath t' 1 i it' := by
  cases hscan : exactFastScan (itemNameForMatching s) index with
  | some r =>
      obtain ⟨i, t', it'⟩ := r
      refine ⟨t', i, it', ?_⟩
      unfold match_item_exact_phase
      rw [hscan]
  | none => exact absurd hnorm (exactFastScan_none hscan (t, it) hmem)

/-- Witness for C8 (amended): "PARACETAMOL 500MG" normalises to itself up to
case folding, so querying the indexed string hits the fast path. -/
theorem match_item_exact_phase_fast_witness :
    ∃ t' i it', match_item_exact_phase "PARACETAMOL 500MG"
      [("PARACETAMOL 500MG", { item_name := "PARACETAMOL 500MG", rate := 10, type := .UNIT })]
      = .fastPath t' 1 i it' :=
  match_item_exact_phase_fast _ _ _
    { item_name := "PARACETAMOL 500MG", rate := 10, type := .UNIT }
    (List.mem_singleton.mpr rfl) (by decide)

/-! ## Claims C4 and C5: payment isolation and the grand-total invariant -/

theorem charOfNat_toNat {n : Nat} (h : n < 55296) : (Char.ofNat n).toNat = n := by
  unfold Char.ofNat
  split
  · simp [Char.ofNatAux, Char.toNat, UInt32.toNat, BitVec.toNat_ofNatLt]
  · next hh => exact absurd (Or.inl h) hh

theorem upChar_idem (c : Char) : upChar (upChar c) = upChar c := by
  unfold upChar
  by_cases h : 97 ≤ c.toNat ∧ c.toNat ≤ 122
  · rw [if_pos h]
    have ht : (Char.ofNat (c.toNat - 32)).toNat = c.toNat - 32 :=
      charOfNat_toNat (by omega)
    have hno : ¬(97 ≤ (Char.ofNat (c.toNat - 32)).toNat ∧
        (Char.ofNat (c.toNat - 32)).toNat ≤ 122) := by
      rw [ht]; omega
    rw [if_neg hno]
  · rw [if_neg h, if_neg h]

theorem upperL_idem (s : Str) : upperL (upperL s) = upperL s := by
  unfold upperL
  rw [List.map_map]
  exact List.map_congr_left (fun c _ => upChar_idem c)

/-- Uppercasing before `is_paymentish` is absorbed by its own uppercasing. -/
theorem is_paymentish_upperL (d : Str) : is_paymentish (upperL d) = is_paymentish d := by
  unfold is_paymentish
  rw [upperL_idem]

/-- Claim C4.  `billExtractTail` either raises the structural AssertionError
or returns a document; it raises exactly when some emitted item's description
contains RCPO- or RCP or matches a payment pattern (the `paymentLeak` test of
`_validate_no_payment_leakage`), the AssertionError is the only possible
error, and every returned document carries exactly the emitted items, none of
which matches a payment pattern. -/
theorem billExtractTail_payment_isolation
    (categorized : List (String × List LineItem))
    (discounts : List (String × List Discount)) :
    (billExtractTail categorized discounts = .error .assertionError ↔
      ∃ kv ∈ categorized, ∃ it ∈ kv.2, paymentLeak it.description.data = true) ∧
    (∀ e, billExtractTail categorized discounts = .error e → e = .assertionError) ∧
    (∀ doc, billExtractTail categorized discounts = .ok doc →
      doc.items = categorized ∧
      ∀ kv ∈ doc.items, ∀ it ∈ kv.2, is_paymentish it.description.data = false) := by
  by_cases hleak :
      categorized.any (fun kv => kv.2.any (fun it => paymentLeak it.description.data)) = true
  · have herr : billExtractTail categorized discounts = .error .assertionError := by
      unfold billExtractTail validate_no_payment_leakage
      rw [if_pos hleak]
      rfl
    refine ⟨⟨fun _ => ?_, fun _ => herr⟩, fun e he => ?_, fun doc hok => ?_⟩
    · obtain ⟨kv, hkv, hit⟩ := List.any_eq_true.mp hleak
      obtain ⟨it, hits, hp⟩ := List.any_eq_true.mp hit
      exact ⟨kv, hkv, it, hits, hp⟩
    · rw [herr] at he
      exact (Except.error.inj he).symm
    · rw [herr] at hok
      simp at hok
  · have hok0 : validate_no_payment_leakage categorized = .ok () := by
      unfold validate_no_payment_leakage
      rw [if_neg hleak]
    have hdoc : ∃ doc0, billExtractTail categorized discounts = .ok doc0 ∧
        doc0.items = categorized := by
      unfold billExtractTail
      rw [hok0]
      exact ⟨_, rfl, rfl⟩
    obtain ⟨doc0, hdoc0, hitems0⟩ := hdoc
    refine ⟨⟨fun h => ?_, fun hex => ?_⟩, fun e he => ?_, fun doc hok => ?_⟩
    · rw [hdoc0] at h
      simp at h
    · obtain ⟨kv, hkv, it, hits, hp⟩ := hex
      exact absurd (List.any_eq_true.mpr ⟨kv, hkv, List.any_eq_true.mpr ⟨it, hits, hp⟩⟩) hleak
    · rw [hdoc0] at he
      simp at he
    · rw [hdoc0] at hok
      obtain rfl : doc0 = doc := Except.ok.inj hok
      refine ⟨hitems0, fun kv hkv it hit => ?_⟩
      rw [hitems0] at hkv
      have hnl : paymentLeak it.description.data = false := by
        cases hx : paymentLeak it.description.data with
        | false => rfl
        | true =>
            exact absurd
              (List.any_eq_true.mpr ⟨kv, hkv, List.any_eq_true.mpr ⟨it, hit, hx⟩⟩) hleak
      unfold paymentLeak at hnl
      simp only [Bool.or_eq_false_iff] at hnl
      rw [← is_paymentish_upperL]
      exact hnl.2

/-- Witness for C4 at the spec's payment-isolation scenario: an item carrying
"RCPO-12345 CASH" makes extraction raise the structural error. -/
theorem billExtractTail_payment_isolation_witness :
    billExtractTail
      [("other", [{ description := "RCPO-12345 CASH", final_amount := 5000,
                    discrepancy := false }])] []
      = .error .assertionError :=
  (billExtractTail_payment_isolation _ _).1.mpr
    ⟨_, List.mem_singleton.mpr rfl, _, List.mem_singleton.mpr rfl, by decide⟩

theorem isDec2_list_sum : ∀ l : List ℚ, (∀ x ∈ l, IsDec2 x) → IsDec2 l.sum
  | [], _ => by simpa using isDec2_zero
  | x :: l, h => by
      rw [List.sum_cons]
      exact isDec2_add (h x (List.mem_cons_self x l))
        (isDec2_list_sum l (fun y hy => h y (List.mem_cons_of_mem x hy)))

/-- Claim C5.  Every returned document satisfies: each recorded subtotal is
the rounded sum of `final_amount` over that category's billable items
(discounts never enter them); the grand total equals the sum of the recorded
subtotals outright — difference 0, well within the 0.01 tolerance — whenever
that sum is at most `MAX_GRAND_TOTAL = 1e8`, and otherwise the grand total is
capped at exactly 1e8 and a "grand_total_cap" warning is recorded instead of
a failure; and changing the discounts input changes neither subtotals nor the
grand total. -/
theorem billExtractTail_grand_total
    (categorized : List (String × List LineItem))
    (discounts : List (String × List Discount))
    (doc : BillDoc) (hok : billExtractTail categorized discounts = .ok doc) :
    (∀ kv ∈ doc.subtotals, ∃ items, (kv.1, items) ∈ categorized ∧
      kv.2 = round2 ((items.map LineItem.final_amount).sum)) ∧
    ((doc.subtotals.map Prod.snd).sum ≤ MAX_GRAND_TOTAL →
      doc.grand_total = (doc.subtotals.map Prod.snd).sum) ∧
    (MAX_GRAND_TOTAL < (doc.subtotals.map Prod.snd).sum →
      doc.grand_total = MAX_GRAND_TOTAL ∧
      "grand_total_cap" ∈ doc.extraction_warnings) ∧
    (∀ discounts', ∃ doc', billExtractTail categorized discounts' = .ok doc' ∧
      doc'.subtotals = doc.subtotals ∧ doc'.grand_total = doc.grand_total) := by
  have hnl : categorized.any
      (fun kv => kv.2.any (fun it => paymentLeak it.description.data)) = false := by
    cases hx : categorized.any
        (fun kv => kv.2.any (fun it => paymentLeak it.description.data)) with
    | false => rfl
    | true =>
        have herr : billExtractTail categorized discounts = .error .assertionError := by
          unfold billExtractTail validate_no_payment_leakage
          rw [if_pos hx]
          rfl
        rw [herr] at hok
        simp at hok
  have hval : validate_no_payment_leakage categorized = .ok () := by
    unfold validate_no_payment_leakage
    rw [if_neg (by simp [hnl])]
  have hrun : ∀ (ds : List (String × List Discount)),
      billExtractTail categorized ds = .ok
        { items := categorized, subtotals := subtotalsOf categorized,
          grand_total := grandFinalOf categorized,
          discount_total := buildDiscountTotal ds,
          extraction_warnings := warningsOf categorized } := by
    intro ds
    unfold billExtractTail
    rw [hval]
    rfl
  have hdoc := hrun discounts
  rw [hdoc] at hok
  obtain rfl := Except.ok.inj hok
  have hsubIsDec2 : ∀ x ∈ (subtotalsOf categorized).map Prod.snd, IsDec2 x := by
    intro x hx
    obtain ⟨kv, hkv, rfl⟩ := List.mem_map.mp hx
    obtain ⟨kv', _, rfl⟩ := List.mem_map.mp (List.mem_of_mem_filter hkv)
    exact round2_isDec2 _
  have hS : grand0Of categorized = ((subtotalsOf categorized).map Prod.snd).sum :=
    round2_eq_self (isDec2_list_sum _ hsubIsDec2)
  refine ⟨?_, ?_, ?_, ?_⟩
  · intro kv hkv
    obtain ⟨x, hxmem, hxeq⟩ := List.mem_map.mp (List.mem_of_mem_filter hkv)
    refine ⟨x.2, ?_, ?_⟩
    · rw [show (kv.1, x.2) = x by rw [← hxeq]]
      exact hxmem
    · rw [← hxeq]
  · intro hle
    show grandFinalOf categorized = _
    unfold grandFinalOf
    have hok1 : (validate_grand_total (grand0Of categorized)).1 = true := by
      unfold validate_grand_total
      rw [if_neg (not_lt.mpr (by rw [hS]; exact hle))]
    rw [if_pos hok1]
    exact hS
  · intro hgt
    have hok1 : (validate_grand_total (grand0Of categorized)).1 = false := by
      unfold validate_grand_total
      rw [if_pos (by rw [hS]; exact hgt)]
    constructor
    · show grandFinalOf categorized = _
      unfold grandFinalOf
      rw [if_neg (by simp [hok1]), hS]
      exact min_eq_right (le_of_lt hgt)
    · show "grand_total_cap" ∈ warningsOf categorized
      unfold warningsOf
      rw [if_neg (by simp [hok1])]
      exact List.mem_append_right _ (List.mem_singleton.mpr rfl)
  · intro discounts'
    exact ⟨_, hrun discounts', rfl, rfl⟩

/-- Witness for C5: a document extracted from no billable items has grand
total equal to the (empty) sum of its recorded subtotals. -/
theorem billExtractTail_grand_total_witness :
    ∃ doc, billExtractTail [] [] = .ok doc ∧
      doc.grand_total = (doc.subtotals.map Prod.snd).sum := by
  obtain ⟨doc, hdoc⟩ : ∃ doc, billExtractTail [] [] = .ok doc :=
    ⟨_, by unfold billExtractTail validate_no_payment_leakage; rfl⟩
  refine ⟨doc, hdoc, (billExtractTail_grand_total _ _ doc hdoc).2.1 ?_⟩
  have hsubs : doc.subtotals = [] := by
    have h2 : billExtractTail ([] : List (String × List LineItem)) [] = .ok
        { items := [], subtotals := subtotalsOf [],
          grand_total := grandFinalOf [], discount_total := buildDiscountTotal [],
          extraction_warnings := warningsOf [] } := by
      unfold billExtractTail validate_no_payment_leakage
      rfl
    obtain rfl := Except.ok.inj (hdoc.symm.trans h2)
    rfl
  rw [hsubs]
  unfold MAX_GRAND_TOTAL
  norm_num

/-! ## Claim C6: column interpretation and derived amount fields -/

theorem mkParsedItem_fields (d : String) (q r p : Option ℚ) :
    (mkParsedItem d q r p).description = d ∧ (mkParsedItem d q r p).qty = q ∧
    (mkParsedItem d q r p).unit_rate = r ∧ (mkParsedItem d q r p).pdf_amount = p := by
  unfold mkParsedItem
  rcases p with _ | p <;> rcases q with _ | q <;> rcases r with _ | r <;>
    try exact ⟨rfl, rfl, rfl, rfl⟩
  by_cases h : 2/100 < |p - round2 (q * r)| <;> simp [h]

theorem mkParsedItem_eq_no_computed (d : String) (q r p : Option ℚ)
    (h : q = none ∨ r = none) :
    mkParsedItem d q r p = ⟨d, q, r, p, none, p, false⟩ := by
  rcases h with rfl | rfl
  · rcases p with _ | p <;> rfl
  · rcases q with _ | q <;> rcases p with _ | p <;> rfl

theorem mkParsedItem_eq_qr_no_pdf (d : String) (a b : ℚ) :
    mkParsedItem d (some a) (some b) none =
      ⟨d, some a, some b, none, some (round2 (a * b)), some (round2 (a * b)), false⟩ := rfl

theorem mkParsedItem_eq_both_big (d : String) (a b p : ℚ)
    (h : 2/100 < |p - round2 (a * b)|) :
    mkParsedItem d (some a) (some b) (some p) =
      ⟨d, some a, some b, some p, some (round2 (a * b)), some p, true⟩ := by
  unfold mkParsedItem
  simp [h]

theorem mkParsedItem_eq_both_small (d : String) (a b p : ℚ)
    (h : ¬ 2/100 < |p - round2 (a * b)|) :
    mkParsedItem d (some a) (some b) (some p) =
      ⟨d, some a, some b, some p, some (round2 (a * b)), some (round2 (a * b)), false⟩ := by
  unfold mkParsedItem
  simp [h]

theorem mkParsedItem_computed (d : String) (q r p : Option ℚ) :
    (∀ a b, q = some a → r = some b →
      (mkParsedItem d q r p).computed_amount = some (round2 (a * b))) ∧
    ((q = none ∨ r = none) → (mkParsedItem d q r p).computed_amount = none) := by
  constructor
  · rintro a b rfl rfl
    rcases p with _ | p
    · rw [mkParsedItem_eq_qr_no_pdf]
    · by_cases h : 2/100 < |p - round2 (a * b)|
      · rw [mkParsedItem_eq_both_big d a b p h]
      · rw [mkParsedItem_eq_both_small d a b p h]
  · intro h
    rw [mkParsedItem_eq_no_computed d q r p h]

theorem mkParsedItem_final (d : String) (q r p : Option ℚ) :
    (∀ pv cv, (mkParsedItem d q r p).pdf_amount = some pv →
      (mkParsedItem d q r p).computed_amount = some cv →
      (2/100 < |pv - cv| →
        (mkParsedItem d q r p).final_amount = some pv ∧
        (mkParsedItem d q r p).discrepancy = true) ∧
      (¬ 2/100 < |pv - cv| →
        (mkParsedItem d q r p).final_amount = some cv ∧
        (mkParsedItem d q r p).discrepancy = false)) ∧
    ((mkParsedItem d q r p).computed_amount = none →
      (mkParsedItem d q r p).final_amount = (mkParsedItem d q r p).pdf_amount ∧
      (mkParsedItem d q r p).discrepancy = false) := by
  constructor
  · intro pv cv hpv hcv
    rcases q with _ | a
    · rw [mkParsedItem_eq_no_computed d none r p (Or.inl rfl)] at hcv
      simp at hcv
    rcases r with _ | b
    · rw [mkParsedItem_eq_no_computed d (some a) none p (Or.inr rfl)] at hcv
      simp at hcv
    rcases p with _ | p
    · rw [mkParsedItem_eq_qr_no_pdf] at hpv
      simp at hpv
    · by_cases h : 2/100 < |p - round2 (a * b)|
      · rw [mkParsedItem_eq_both_big d a b p h] at hpv hcv ⊢
        obtain rfl : p = pv := Option.some.inj hpv
        obtain rfl : round2 (a * b) = cv := Option.some.inj hcv
        exact ⟨fun _ => ⟨rfl, rfl⟩, fun hno => absurd h hno⟩
      · rw [mkParsedItem_eq_both_small d a b p h] at hpv hcv ⊢
        obtain rfl : p = pv := Option.some.inj hpv
        obtain rfl : round2 (a * b) = cv := Option.some.inj hcv
        exact ⟨fun h2 => absurd h2 h, fun _ => ⟨rfl, rfl⟩⟩
  · intro hc
    rcases q with _ | a
    · rw [mkParsedItem_eq_no_computed d none r p (Or.inl rfl)]
      exact ⟨rfl, rfl⟩
    rcases r with _ | b
    · rw [mkParsedItem_eq_no_computed d (some a) none p (Or.inr rfl)]
      exact ⟨rfl, rfl⟩
    rcases p with _ | p
    · rw [mkParsedItem_eq_qr_no_pdf] at hc
      simp at hc
    · by_cases h : 2/100 < |p - round2 (a * b)|
      · rw [mkParsedItem_eq_both_big d a b p h] at hc
        simp at hc
      · rw [mkParsedItem_eq_both_small d a b p h] at hc
        simp at hc

theorem mkParsedItem_computed_proj (d : String) (q r p : Option ℚ) :
    (∀ a b, (mkParsedItem d q r p).qty = some a →
      (mkParsedItem d q r p).unit_rate = some b →
      (mkParsedItem d q r p).computed_amount = some (round2 (a * b))) ∧
    (((mkParsedItem d q r p).qty = none ∨ (mkParsedItem d q r p).unit_rate = none) →
      (mkParsedItem d q r p).computed_amount = none) := by
  have hq := (mkParsedItem_fields d q r p).2.1
  have hr := (mkParsedItem_fields d q r p).2.2.1
  constructor
  · intro a b ha hb
    exact (mkParsedItem_computed d q r p).1 a b (hq.symm.trans ha) (hr.symm.trans hb)
  · intro h
    refine (mkParsedItem_computed d q r p).2 ?_
    rcases h with h | h
    · exact Or.inl (hq.symm.trans h)
    · exact Or.inr (hr.symm.trans h)

/-- Claim C6, amended.  The original quantification over every description
fails for a description that is blank after stripping: the source returns no
item then, whatever the columns hold.  For every non-blank description,
`parse_item_columns` maps its accepted numeric columns as the claim states —
no item for zero columns;
qty 1 with the single column as amount; for two columns qty and amount when
the first is below 100 and otherwise rate and amount with qty 1; and for
three or more columns the last three as qty, rate and amount — and the
resulting item satisfies the derived-field rules: computed = round2 of
qty times rate when both are present, the B2 precedence of pdf over computed
beyond the 0.02 tolerance, and discrepancy exactly when they disagree beyond
that tolerance. -/
theorem parse_item_columns_spec (description full_text : String)
    (columns : List String)
    (hd : (pyStrip description.data).isEmpty = false) :
    (itemNumericCols description columns full_text = [] →
      parse_item_columns description columns full_text = none) ∧
    (∀ it, parse_item_columns description columns full_text = some it →
      ((∀ x, itemNumericCols description columns full_text = [x] →
          it.qty = some 1 ∧ it.unit_rate = none ∧ it.pdf_amount = some x) ∧
       (∀ y1 y2, itemNumericCols description columns full_text = [y1, y2] →
          (y1 < 100 → it.qty = some y1 ∧ it.unit_rate = none ∧ it.pdf_amount = some y2) ∧
          (¬ y1 < 100 → it.qty = some 1 ∧ it.unit_rate = some y1 ∧ it.pdf_amount = some y2)) ∧
       (3 ≤ (itemNumericCols description columns full_text).length →
          it.qty = some ((itemNumericCols description columns full_text).reverse.getD 2 0) ∧
          it.unit_rate = some ((itemNumericCols description columns full_text).reverse.getD 1 0) ∧
          it.pdf_amount = some ((itemNumericCols description columns full_text).reverse.getD 0 0))) ∧
      ((∀ a b, it.qty = some a → it.unit_rate = some b →
          it.computed_amount = some (round2 (a * b))) ∧
       ((it.qty = none ∨ it.unit_rate = none) → it.computed_amount = none) ∧
       (∀ pv cv, it.pdf_amount = some pv → it.computed_amount = some cv →
          (2/100 < |pv - cv| → it.final_amount = some pv ∧ it.discrepancy = true) ∧
          (¬ 2/100 < |pv - cv| → it.final_amount = some cv ∧ it.discrepancy = false)) ∧
       (it.computed_amount = none →
          it.final_amount = it.pdf_amount ∧ it.discrepancy = false))) := by
  have hdef : parse_item_columns description columns full_text =
      (match itemNumericCols description columns full_text with
      | [] => none
      | [x] => some (mkParsedItem ⟨pyStrip description.data⟩ (some 1) none (some x))
      | [x1, x2] =>
          if x1 < 100 then
            some (mkParsedItem ⟨pyStrip description.data⟩ (some x1) none (some x2))
          else
            some (mkParsedItem ⟨pyStrip description.data⟩ (some 1) (some x1) (some x2))
      | x1 :: x2 :: x3 :: rest =>
          some (mkParsedItem ⟨pyStrip description.data⟩
            (some ((x1 :: x2 :: x3 :: rest).reverse.getD 2 0))
            (some ((x1 :: x2 :: x3 :: rest).reverse.getD 1 0))
            (some ((x1 :: x2 :: x3 :: rest).reverse.getD 0 0)))) := by
    unfold parse_item_columns
    rw [if_neg (by simp [hd])]
  rcases hnums : itemNumericCols description columns full_text with
    _ | ⟨x1, _ | ⟨x2, _ | ⟨x3, rest⟩⟩⟩ <;> rw [hnums] at hdef
  · constructor
    · intro _
      exact hdef.trans rfl
    · intro it hit
      rw [hdef] at hit
      exact Option.noConfusion hit
  · refine ⟨fun h0 => by simp at h0, fun it hit => ?_⟩
    rw [hdef] at hit
    obtain rfl := (Option.some.inj hit).symm
    refine ⟨⟨?_, ?_, ?_⟩, (mkParsedItem_computed_proj _ _ _ _).1,
      (mkParsedItem_computed_proj _ _ _ _).2, (mkParsedItem_final _ _ _ _).1,
      (mkParsedItem_final _ _ _ _).2⟩
    · intro x hx
      obtain ⟨rfl, -⟩ := List.cons.inj hx
      exact ⟨(mkParsedItem_fields _ _ _ _).2.1, (mkParsedItem_fields _ _ _ _).2.2.1,
        (mkParsedItem_fields _ _ _ _).2.2.2⟩
    · intro y1 y2 hy
      simp at hy
    · intro h3
      simp at h3
  · have hit2def : parse_item_columns description columns full_text =
        (if x1 < 100 then
          some (mkParsedItem ⟨pyStrip description.data⟩ (some x1) none (some x2))
        else
          some (mkParsedItem ⟨pyStrip description.data⟩ (some 1) (some x1) (some x2))) :=
      hdef.trans rfl
    by_cases h100 : x1 < 100
    · rw [if_pos h100] at hit2def
      refine ⟨fun h0 => by simp at h0, fun it hit => ?_⟩
      rw [hit2def] at hit
      obtain rfl := (Option.some.inj hit).symm
      refine ⟨⟨?_, ?_, ?_⟩, (mkParsedItem_computed_proj _ _ _ _).1,
        (mkParsedItem_computed_proj _ _ _ _).2, (mkParsedItem_final _ _ _ _).1,
        (mkParsedItem_final _ _ _ _).2⟩
      · intro x hx
        simp at hx
      · intro y1 y2 hy
        obtain ⟨rfl, hy2⟩ := List.cons.inj hy
        obtain ⟨rfl, -⟩ := List.cons.inj hy2
        refine ⟨fun _ => ⟨(mkParsedItem_fields _ _ _ _).2.1,
          (mkParsedItem_fields _ _ _ _).2.2.1, (mkParsedItem_fields _ _ _ _).2.2.2⟩,
          fun hno => absurd h100 hno⟩
      · intro h3
        simp at h3
    · rw [if_neg h100] at hit2def
      refine ⟨fun h0 => by simp at h0, fun it hit => ?_⟩
      rw [hit2def] at hit
      obtain rfl := (Option.some.inj hit).symm
      refine ⟨⟨?_, ?_, ?_⟩, (mkParsedItem_computed_proj _ _ _ _).1,
        (mkParsedItem_computed_proj _ _ _ _).2, (mkParsedItem_final _ _ _ _).1,
        (mkParsedItem_final _ _ _ _).2⟩
      · intro x hx
        simp at hx
      · intro y1 y2 hy
        obtain ⟨rfl, hy2⟩ := List.cons.inj hy
        obtain ⟨rfl, -⟩ := List.cons.inj hy2
        refine ⟨fun hyes => absurd hyes h100,
          fun _ => ⟨(mkParsedItem_fields _ _ _ _).2.1,
            (mkParsedItem_fields _ _ _ _).2.2.1, (mkParsedItem_fields _ _ _ _).2.2.2⟩⟩
      · intro h3
        simp at h3
  · refine ⟨fun h0 => by simp at h0, fun it hit => ?_⟩
    rw [hdef] at hit
    obtain rfl := (Option.some.inj hit).symm
    refine ⟨⟨?_, ?_, ?_⟩, (mkParsedItem_computed_proj _ _ _ _).1,
      (mkParsedItem_computed_proj _ _ _ _).2, (mkParsedItem_final _ _ _ _).1,
      (mkParsedItem_final _ _ _ _).2⟩
    · intro x hx
      simp at hx
    · intro y1 y2 hy
      simp at hy
    · intro _
      exact ⟨(mkParsedItem_fields _ _ _ _).2.1, (mkParsedItem_fields _ _ _ _).2.2.1,
        (mkParsedItem_fields _ _ _ _).2.2.2⟩

/-- Acceptance characterization of parse_numeric_column: non-blank text with
no identifier context in the preceding window, not a suspect numeric, and
parsing to an in-range value, is accepted with that value. -/
theorem parse_numeric_column_ok (text ctx : Str) (v : ℚ)
    (h1 : (pyStrip text).isEmpty = false)
    (h2 : has_identifier_context ctx = false)
    (h3 : is_suspect_numeric (pyStrip text) = false)
    (h4 : extract_numeric_value text = some v)
    (h5 : ¬ MAX_LINE_ITEM_AMOUNT < v) (h6 : ¬ v < 0) :
    parse_numeric_column text ctx = some v := by
  unfold parse_numeric_column
  rw [h1, h2, h3, h4]
  simp [h5, h6]

/-- A single accepted column yields a one-element numeric column list. -/
theorem colsLoop_single (description col ctx : Str) (v : ℚ)
    (h1 : (pyStrip col).isEmpty = false)
    (h2 : containsSub (pyStrip col) description = false)
    (h3 : parse_numeric_column col ctx = some v) :
    colsLoop description [col] ctx = [v] := by
  unfold colsLoop
  rw [h1, h2, h3]
  simp
  rfl

/-- Claim C6 counterexample: the claim quantifies over every description, but
for the blank description "" with the single column "300" the accepted
numeric column list is [300] while parse_item_columns yields no item at the
blank-description guard, contradicting the claim's one-column case, which
requires an item with quantity 1 and amount 300. -/
theorem parse_item_columns_blank_counterexample :
    itemNumericCols "" ["300"] "" = [(300 : ℚ)] ∧
    parse_item_columns "" ["300"] "" = none := by
  constructor
  · have hdv : ((digitsVal "300".data : ℕ) : ℚ) = 300 := by
      have h300 : digitsVal "300".data = 300 := rfl
      rw [h300]
      norm_num
    have h0 : extract_numeric_value "300".data
        = some ((1 : ℚ) * ((digitsVal "300".data : ℕ) : ℚ)) := rfl
    have h4 : extract_numeric_value "300".data = some (300 : ℚ) := by
      rw [h0, hdv, one_mul]
    have hpn : parse_numeric_column "300".data ("".data.take 100) = some (300 : ℚ) :=
      parse_numeric_column_ok _ _ _ (by decide) (by decide) (by decide) h4
        (by norm_num [MAX_LINE_ITEM_AMOUNT]) (by norm_num)
    show colsLoop "".data ["300".data] ("".data.take 100) = [(300 : ℚ)]
    exact colsLoop_single _ _ _ _ (by decide) (by decide) hpn
  · rfl

/-- Witness for C6: a nonempty description with no columns yields no item, and
with the single column "300" it yields an item with quantity 1, no unit rate
and pdf amount 300. -/
theorem parse_item_columns_spec_witness :
    parse_item_columns "ECG" [] "" = none ∧
    ∃ it, parse_item_columns "ECG" ["300"] "" = some it ∧
      it.qty = some 1 ∧ it.unit_rate = none ∧ it.pdf_amount = some 300 := by
  have hdv : ((digitsVal "300".data : ℕ) : ℚ) = 300 := by
    have h300 : digitsVal "300".data = 300 := rfl
    rw [h300]
    norm_num
  have h0 : extract_numeric_value "300".data
      = some ((1 : ℚ) * ((digitsVal "300".data : ℕ) : ℚ)) := rfl
  have h4 : extract_numeric_value "300".data = some (300 : ℚ) := by
    rw [h0, hdv, one_mul]
  have hpn : parse_numeric_column "300".data ("ECG".data.take 100) = some (300 : ℚ) :=
    parse_numeric_column_ok _ _ _ (by decide) (by decide) (by decide) h4
      (by norm_num [MAX_LINE_ITEM_AMOUNT]) (by norm_num)
  have hnums : itemNumericCols "ECG" ["300"] "" = [(300 : ℚ)] := by
    show colsLoop "ECG".data ["300".data] ("ECG".data.take 100) = [(300 : ℚ)]
    exact colsLoop_single _ _ _ _ (by decide) (by decide) hpn
  have hit : parse_item_columns "ECG" ["300"] "" =
      some (mkParsedItem "ECG" (some 1) none (some 300)) := by
    unfold parse_item_columns
    rw [if_neg (by decide)]
    rw [hnums]
    rfl
  refine ⟨(parse_item_columns_spec "ECG" "" [] (by decide)).1 rfl,
    mkParsedItem "ECG" (some 1) none (some 300), hit, ?_⟩
  exact ((parse_item_columns_spec "ECG" "" ["300"] (by decide)).2 _ hit).1.1 300 hnums
